import Mathlib

/-!
Verification of the server tracing middleware of `net/ghttp`
(`ghttp_middleware_tracing.go`): the functions
`internalMiddlewareServerTracing` and `getSpanContext` are embedded as pure
Lean functions over an explicit request/span model, and the spec's testable
properties are proved or refuted against that embedding.

Modelling conventions:
* A Go `context.Context` is modelled by the two pieces of information this
  middleware reads or writes: the presence of the idempotency marker key
  `tracingMiddlewareHandled` (a `Bool`) and the carried remote parent span
  context (an `Option SpanContext`).
* Span operations (`tr.Start`, `SetAttributes`, `AddEvent`, `SetStatus`,
  `End`) are recorded in a `SpanRecord` value; the middleware returns the list
  of span records produced by an invocation (nested handler spans followed by
  its own).
* The request body is a stream: `Body.content` holds the bytes (as a string)
  and `Body.failAfter = some k` models a stream whose read fails after `k`
  bytes, mirroring `ioutil.ReadAll` returning the bytes read so far together
  with an error.
* External collaborators that are part of this repository but outside the
  analyzed fragment (the text-map propagator, `gstr.StrLimit`,
  `trace.TraceIDFromHex`, header serialization, baggage serialization, fresh
  ID generation) are modelled from the spec; each such definition carries a
  doc comment saying so.
-/

namespace GfTracing

/-- A span context: trace identifier, span identifier, trace flags, trace
state and the remote marker, as in `trace.SpanContext`. -/
structure SpanContext where
  traceID : String
  spanID : String
  traceFlags : Nat
  traceState : List (String × String)
  remote : Bool
  deriving Repr, DecidableEq

/-- The slice of a Go `context.Context` this middleware observes: whether the
idempotency marker key `tracingMiddlewareHandled` is present, and the remote
parent span context carried for span creation. -/
structure Ctx where
  handled : Bool
  parent : Option SpanContext
  deriving Repr, DecidableEq

/-- An HTTP header: an ordered list of key/value pairs (keys stored in their
canonical form, as Go's `http.Header` does). -/
structure Header where
  pairs : List (String × String)
  deriving Repr, DecidableEq

/-- `http.Header.Get`: the first value stored under the key, or `""` when the
key is absent. -/
def Header.get (h : Header) (k : String) : String :=
  match h.pairs.find? (fun p => p.1 = k) with
  | some p => p.2
  | none => ""

/-- Remove every pair stored under key `k` (used to state the spec's
"same headers minus that custom header"). -/
def Header.eraseKey (h : Header) (k : String) : Header :=
  ⟨h.pairs.filter (fun p => p.1 ≠ k)⟩

/-- A request body stream. `content` is the full byte sequence the client
sent; `failAfter = some k` models a stream whose read fails after delivering
`k` bytes. -/
structure Body where
  content : String
  failAfter : Option Nat
  deriving Repr, DecidableEq

/-- `ioutil.ReadAll` on a body stream: the bytes delivered and whether an
error occurred. On failure the bytes read so far are still returned, as
`ReadAll` does. -/
def readAll (b : Body) : String × Bool :=
  match b.failAfter with
  | none => (b.content, false)
  | some k => (b.content.take k, true)

/-- The response as this middleware sees it: its header and the buffered
response content (`r.Response.BufferString()`). -/
structure Response where
  header : Header
  buffer : String
  deriving Repr, DecidableEq

/-- An inbound request: context, URL, header, body stream, response buffer
and the error slot read by `r.GetError()`. -/
structure Request where
  ctx : Ctx
  url : String
  header : Header
  body : Body
  response : Response
  err : Option String
  deriving Repr, DecidableEq

/-- A timestamped span event: name plus its attribute set (string keyed and
string valued, as produced by `attribute.String`). -/
structure SpanEvent where
  name : String
  attrs : List (String × String)
  deriving Repr, DecidableEq

/-- The record of one span produced by the middleware: its name, the context
passed to `tr.Start` (carrying the parent), the trace identifier the started
span belongs to, its kind, attributes, events, status and whether `End` was
called. -/
structure SpanRecord where
  name : String
  parentCtx : Ctx
  traceID : String
  kind : String
  attrs : List (String × String)
  events : List SpanEvent
  status : Option (String × String)
  ended : Bool
  deriving Repr, DecidableEq

/-- The configuration and environment the middleware consumes from its
collaborators: whether the active tracer provider is the default no-op one
(`gtrace.IsUsingDefaultProvider`), the maximum content log size
(`gtrace.MaxContentLogSize`), the common labels (`gtrace.CommonLabels`), the
baggage serialization for this request (`gtrace.GetBaggageMap(ctx).String()`),
and the fresh identifiers the generators would produce next
(`tracing.NewSpanID` and the tracer's fresh trace ID for a root span). -/
structure Env where
  usingDefaultProvider : Bool
  maxContentLogSize : Nat
  commonLabels : List (String × String)
  baggage : String
  freshSpanID : String
  freshTraceID : String
  deriving Repr, DecidableEq

/-- A middleware handler: consumes a request, returns the final request state
and the spans produced while handling it (`r.Middleware.Next()`). -/
abbrev Handler := Request → Request × List SpanRecord

/-- Hexadecimal digit in canonical (lowercase) form. -/
def isHexDigit (c : Char) : Bool :=
  (48 ≤ c.toNat && c.toNat ≤ 57) || (97 ≤ c.toNat && c.toNat ≤ 102)

/-- Modelled from the spec: `trace.TraceIDFromHex` (external collaborator).
A trace identifier is valid when it is the canonical hex encoding of a
128-bit identifier — 32 lowercase hex characters, not all zero. On success
the canonical identifier is returned; on failure `none`. -/
def traceIDFromHex (s : String) : Option String :=
  if s.length = 32 && s.toList.all isHexDigit && s.toList.any (fun c => c != '0')
  then some s else none

/-- Modelled from the spec: parsing of the W3C-style `traceparent` header by
the standard propagation format (external collaborator):
`version-traceid-spanid-flags` with 2, 32, 16 and 2 lowercase hex characters
respectively and nonzero identifiers. -/
def parseTraceparent (s : String) : Option SpanContext :=
  match s.splitOn "-" with
  | [ver, tid, sid, fl] =>
    if ver.length = 2 && ver.toList.all isHexDigit &&
       tid.length = 32 && tid.toList.all isHexDigit && tid.toList.any (fun c => c != '0') &&
       sid.length = 16 && sid.toList.all isHexDigit && sid.toList.any (fun c => c != '0') &&
       fl.length = 2 && fl.toList.all isHexDigit
    then some { traceID := tid, spanID := sid,
                traceFlags := fl.toList.foldl (fun a c => a * 16 + hexCharVal c) 0,
                traceState := [], remote := true }
    else none
  | _ => none
where
  /-- Value of one hex digit. -/
  hexCharVal (c : Char) : Nat := if c.toNat ≤ 57 then c.toNat - 48 else c.toNat - 87

/-- Modelled from the spec: `otel.GetTextMapPropagator().Extract` (external
collaborator). The standard cross-process propagation format reads only the
headers it defines (the W3C-style `traceparent` header); when that header
carries a valid value the returned context carries the extracted remote span
context as parent, otherwise the context is returned unchanged. It never
consults the vendor custom trace-ID header. -/
def standardExtract (ctx : Ctx) (h : Header) : Ctx :=
  match parseTraceparent (h.get "traceparent") with
  | some sc => { ctx with parent := some sc }
  | none => ctx

/-- `getSpanContext(ctx, header)`: read the custom single-value trace-ID
header `MF-X-TRACE-ID`; when absent, or present but not a valid hex trace
identifier, delegate to standard propagation extraction on the same context
and headers; when it parses, return the context carrying a synthesized remote
span context built from the parsed trace ID and a freshly generated span ID
(`trace.NewSpanContext` leaves the flags and state at their zero values). -/
def getSpanContext (ctx : Ctx) (header : Header) (freshSpanID : String) : Ctx :=
  let traceID := header.get "MF-X-TRACE-ID"
  if traceID = "" then
    standardExtract ctx header
  else
    match traceIDFromHex traceID with
    | none => standardExtract ctx header
    | some generatedTraceID =>
      { ctx with parent := some { traceID := generatedTraceID,
                                  spanID := freshSpanID,
                                  traceFlags := 0,
                                  traceState := [],
                                  remote := true } }

/-- Modelled from the spec: `gstr.StrLimit` (external collaborator). A string
exceeding the maximum length is cut to its first `n` bytes with the marker
appended; a string at or under the limit is returned verbatim. -/
def strLimit (s : String) (n : Nat) (marker : String) : String :=
  if s.length ≤ n then s else s.take n ++ marker

/-- Modelled from the spec: `gconv.String(httputil.HeaderToMap(h))` (external
collaborators) — the serialized single-string encoding of a header mapping. -/
def serializeHeaders (h : Header) : String :=
  String.join (h.pairs.map (fun p => p.1 ++ ":" ++ p.2 ++ ";"))

/-- `fmt.Sprintf` of the request error with the verbose format verb: the
error's formatted message text. -/
def formatError (e : String) : String := e

/-- `tr.Start(parentCtx, name, trace.WithSpanKind(trace.SpanKindServer))`
followed by `span.SetAttributes(gtrace.CommonLabels()...)`: a fresh span of
server kind named by the request URL, whose trace identifier continues the
parent's trace when a parent is carried and is freshly generated otherwise,
with the common labels as attributes and no events, status or end yet. -/
def startSpan (env : Env) (parentCtx : Ctx) (name : String) : SpanRecord :=
  { name := name
    parentCtx := parentCtx
    traceID := match parentCtx.parent with
               | some sc => sc.traceID
               | none => env.freshTraceID
    kind := "server"
    attrs := env.commonLabels
    events := []
    status := none
    ended := false }

/-- `span.AddEvent(name, trace.WithAttributes(attrs...))`. -/
def addEvent (sp : SpanRecord) (name : String) (attrs : List (String × String)) :
    SpanRecord :=
  { sp with events := sp.events ++ [{ name := name, attrs := attrs }] }

/-- The error check after delegation: `if err := r.GetError(); err != nil`
then `span.SetStatus(codes.Error, fmt.Sprintf(..., err))`. -/
def recordError (sp : SpanRecord) (e : Option String) : SpanRecord :=
  match e with
  | some msg => { sp with status := some ("Error", formatError msg) }
  | none => sp

/-- `span.End()` (run deferred, on every exit path past the span start). -/
def endSpan (sp : SpanRecord) : SpanRecord := { sp with ended := true }

/-- The request-event attribute build of the middleware (its request content
logging block): header and baggage serializations always; when the request's
`Content-Encoding` header is empty, the body stream is drained with the read
error discarded, a fresh readable stream over the bytes read is put back on
the request, and the size-limited body string is appended as an attribute.
Returns the attribute list of the `http.request` event and the updated
request. -/
def requestCapture (env : Env) (r : Request) : List (String × String) × Request :=
  let reqAttrs := [("http.request.headers", serializeHeaders r.header),
                   ("http.request.baggage", env.baggage)]
  if r.header.get "Content-Encoding" = "" then
    let reqBodyContentBytes := (readAll r.body).1
    (reqAttrs ++ [("http.request.body",
                   strLimit reqBodyContentBytes env.maxContentLogSize "...")],
     { r with body := { content := reqBodyContentBytes, failAfter := none } })
  else
    (reqAttrs, r)

/-- The response-event attribute build of the middleware: the response header
serialization always; when the response's `Content-Encoding` header is empty,
the size-limited buffered response content is appended. -/
def responseAttrs (env : Env) (r : Request) : List (String × String) :=
  let respAttrs := [("http.response.headers", serializeHeaders r.response.header)]
  if r.response.header.get "Content-Encoding" = "" then
    respAttrs ++ [("http.response.body",
                   strLimit r.response.buffer env.maxContentLogSize "...")]
  else
    respAttrs

/-- `internalMiddlewareServerTracing(r)`: if the context already carries the
`tracingMiddlewareHandled` marker, delegate to the next handler and return;
otherwise mark the context, derive the parent context via `getSpanContext`,
start the server span with the common labels, inject the span-bearing context
back onto the request, and: on the default-provider fast path just delegate
and end the span; otherwise record the `http.request` event, delegate, set
the error status when the request accumulated an error, record the
`http.response` event and end the span. The returned list holds the spans
produced by nested handlers followed by this invocation's own span. -/
def internalMiddlewareServerTracing (env : Env) (next : Handler) (r : Request) :
    Request × List SpanRecord :=
  if r.ctx.handled then
    next r
  else
    let startCtx := getSpanContext { r.ctx with handled := true } r.header env.freshSpanID
    let span0 := startSpan env startCtx r.url
    let r1 : Request := { r with ctx := startCtx }
    if env.usingDefaultProvider then
      let out := next r1
      (out.1, out.2 ++ [endSpan span0])
    else
      let cap := requestCapture env r1
      let span1 := addEvent span0 "http.request" cap.1
      let out := next cap.2
      let span2 := recordError span1 out.1.err
      let span3 := endSpan (addEvent span2 "http.response" (responseAttrs env out.1))
      (out.1, out.2 ++ [span3])

/-- The context carried by the request when the span is started: the marked
incoming context passed through `getSpanContext`. -/
def startedCtx (env : Env) (r : Request) : Ctx :=
  getSpanContext { r.ctx with handled := true } r.header env.freshSpanID

/-- The request handed to the next handler on the instrumented (non fast)
path: context injected, body captured and restored. -/
def downstreamRequest (env : Env) (r : Request) : Request :=
  (requestCapture env { r with ctx := startedCtx env r }).2

/-! ### Concrete sample inputs -/

/-- A handler that leaves the request unchanged and produces no spans. -/
def idHandler : Handler := fun r => (r, [])

/-- A handler that records an error on the request. -/
def errHandler : Handler := fun r => ({ r with err := some "boom" }, [])

/-- A sample environment with a real (non default) tracer provider. -/
def envReal : Env :=
  { usingDefaultProvider := false
    maxContentLogSize := 5
    commonLabels := [("host", "h1")]
    baggage := "bag"
    freshSpanID := "00f067aa0ba902b7"
    freshTraceID := "4bf92f3577b34da6a3ce929d0e0e4736" }

/-- A sample environment whose tracer provider is the default no-op one. -/
def envNoop : Env := { envReal with usingDefaultProvider := true }

/-- An empty header. -/
def hdrEmpty : Header := ⟨[]⟩

/-- A sample request: unmarked context, no special headers, short body. -/
def reqPlain : Request :=
  { ctx := { handled := false, parent := none }
    url := "/hello"
    header := ⟨[("Accept", "*")]⟩
    body := { content := "abc", failAfter := none }
    response := { header := hdrEmpty, buffer := "pong" }
    err := none }

/-- A request whose context already carries the idempotency marker. -/
def reqMarked : Request := { reqPlain with ctx := { handled := true, parent := none } }

/-- A request carrying a valid custom trace-ID header. -/
def reqCustom : Request :=
  { reqPlain with header := ⟨[("MF-X-TRACE-ID", "4bf92f3577b34da6a3ce929d0e0e4737")]⟩ }

/-- A request whose custom trace-ID header is malformed (wrong length). -/
def reqBadCustom : Request :=
  { reqPlain with header := ⟨[("MF-X-TRACE-ID", "zz"),
                             ("traceparent",
                              "00-4bf92f3577b34da6a3ce929d0e0e4738-00f067aa0ba902b8-01")]⟩ }

/-- A request with a long body (longer than `envReal.maxContentLogSize`) and
a long buffered response. -/
def reqLong : Request :=
  { reqPlain with body := { content := "0123456789", failAfter := none }
                  response := { header := hdrEmpty, buffer := "abcdefghij" } }

/-- A request and response both carrying a non-empty `Content-Encoding`. -/
def reqEncoded : Request :=
  { reqPlain with header := ⟨[("Content-Encoding", "gzip")]⟩
                  response := { header := ⟨[("Content-Encoding", "gzip")]⟩, buffer := "x" } }

/-- A request whose body stream fails after delivering three bytes. -/
def reqFailingBody : Request :=
  { reqPlain with body := { content := "secretbody", failAfter := some 3 } }

/-! ### Helper lemmas -/

/-- Standard extraction never touches the idempotency marker. -/
theorem standardExtract_handled (ctx : Ctx) (h : Header) :
    (standardExtract ctx h).handled = ctx.handled := by
  unfold standardExtract
  cases parseTraceparent (h.get "traceparent") <;> rfl

/-- `getSpanContext` never touches the idempotency marker. -/
theorem getSpanContext_handled (ctx : Ctx) (h : Header) (sid : String) :
    (getSpanContext ctx h sid).handled = ctx.handled := by
  unfold getSpanContext
  by_cases he : h.get "MF-X-TRACE-ID" = ""
  · simp [he, standardExtract_handled]
  · simp only [he, if_false]
    cases traceIDFromHex (h.get "MF-X-TRACE-ID") <;>
      simp [standardExtract_handled]

/-- Request capture never touches the request context. -/
theorem requestCapture_ctx (env : Env) (r : Request) :
    (requestCapture env r).2.ctx = r.ctx := by
  unfold requestCapture
  by_cases he : r.header.get "Content-Encoding" = "" <;> simp [he]

/-- Looking up a key in a list from which a different key was filtered out is
the same as looking it up in the original list. -/
theorem find_filter_ne (k k' : String) (hne : k' ≠ k) :
    ∀ l : List (String × String),
      (l.filter (fun p => decide (p.1 ≠ k))).find? (fun p => decide (p.1 = k'))
        = l.find? (fun p => decide (p.1 = k'))
  | [] => rfl
  | p :: l => by
    by_cases hpk : p.1 = k
    · have h1 : ¬((fun q : String × String => decide (q.1 ≠ k)) p = true) := by
        simp [hpk]
      have h2 : ¬((fun q : String × String => decide (q.1 = k')) p = true) := by
        simp only [decide_eq_true_eq, hpk]
        exact fun hq => hne hq.symm
      rw [List.filter_cons_of_neg (p := fun q : String × String => decide (q.1 ≠ k)) h1,
          List.find?_cons_of_neg (p := fun q : String × String => decide (q.1 = k')) _ h2]
      exact find_filter_ne k k' hne l
    · have h1 : (fun q : String × String => decide (q.1 ≠ k)) p = true := by
        simp [hpk]
      rw [List.filter_cons_of_pos (p := fun q : String × String => decide (q.1 ≠ k)) h1]
      by_cases hp : p.1 = k'
      · have h2 : (fun q : String × String => decide (q.1 = k')) p = true := by
          simp [hp]
        rw [List.find?_cons_of_pos (p := fun q : String × String => decide (q.1 = k')) _ h2,
            List.find?_cons_of_pos (p := fun q : String × String => decide (q.1 = k')) _ h2]
      · have h2 : ¬((fun q : String × String => decide (q.1 = k')) p = true) := by
          simp [hp]
        rw [List.find?_cons_of_neg (p := fun q : String × String => decide (q.1 = k')) _ h2,
            List.find?_cons_of_neg (p := fun q : String × String => decide (q.1 = k')) _ h2]
        exact find_filter_ne k k' hne l

/-- `Header.get` for a key different from the erased one is unchanged. -/
theorem Header.get_eraseKey (h : Header) (k k' : String) (hne : k' ≠ k) :
    (h.eraseKey k).get k' = h.get k' := by
  unfold Header.get Header.eraseKey
  rw [find_filter_ne k k' hne h.pairs]

/-- The guard: a request already carrying the marker is passed through
untouched. -/
theorem middleware_skip (env : Env) (g : Handler) (s : Request)
    (h : s.ctx.handled = true) :
    internalMiddlewareServerTracing env g s = g s := by
  unfold internalMiddlewareServerTracing
  simp [h]

/-- The context injected on the request handed to the next handler carries
the idempotency marker, on both provider paths. -/
theorem middleware_marks (env : Env) (r : Request) :
    (startedCtx env r).handled = true := by
  unfold startedCtx
  rw [getSpanContext_handled]

/-- When the custom header parses, `getSpanContext` returns the context
carrying the synthesized remote span context. -/
theorem getSpanContext_valid (ctx : Ctx) (h : Header) (sid t : String)
    (hget : h.get "MF-X-TRACE-ID" = t) (hparse : traceIDFromHex t = some t) :
    getSpanContext ctx h sid
      = { ctx with parent := some ⟨t, sid, 0, [], true⟩ } := by
  have ht : ¬(t = "") := by
    intro h0
    rw [h0] at hparse
    have hnone : traceIDFromHex "" = none := rfl
    rw [hnone] at hparse
    cases hparse
  simp [getSpanContext, hget, ht, hparse]

/-- The middleware's own span on the instrumented (non fast) path. -/
def slowSpan (env : Env) (next : Handler) (r : Request) : SpanRecord :=
  endSpan (addEvent (recordError
    (addEvent (startSpan env (startedCtx env r) r.url) "http.request"
      (requestCapture env { r with ctx := startedCtx env r }).1)
    (next (downstreamRequest env r)).1.err)
    "http.response" (responseAttrs env (next (downstreamRequest env r)).1))

/-- A non-skipped invocation on the default-provider fast path: delegate with
the span-bearing context injected and only end the span. -/
theorem middleware_run_fast (env : Env) (next : Handler) (r : Request)
    (hh : r.ctx.handled = false) (hp : env.usingDefaultProvider = true) :
    internalMiddlewareServerTracing env next r
      = ((next { r with ctx := startedCtx env r }).1,
         (next { r with ctx := startedCtx env r }).2
           ++ [endSpan (startSpan env (startedCtx env r) r.url)]) := by
  unfold internalMiddlewareServerTracing startedCtx
  simp [hh, hp]

/-- A non-skipped invocation on the instrumented path: capture, delegate,
record error status and response, end the span. -/
theorem middleware_run_slow (env : Env) (next : Handler) (r : Request)
    (hh : r.ctx.handled = false) (hp : env.usingDefaultProvider = false) :
    internalMiddlewareServerTracing env next r
      = ((next (downstreamRequest env r)).1,
         (next (downstreamRequest env r)).2 ++ [slowSpan env next r]) := by
  unfold internalMiddlewareServerTracing slowSpan downstreamRequest startedCtx
  simp [hh, hp]

/-- `recordError` only touches the status field. -/
theorem recordError_events (sp : SpanRecord) (e : Option String) :
    (recordError sp e).events = sp.events := by
  cases e <;> rfl

/-- `recordError` on the parent context field. -/
theorem recordError_parentCtx (sp : SpanRecord) (e : Option String) :
    (recordError sp e).parentCtx = sp.parentCtx := by
  cases e <;> rfl

/-- `recordError` on the trace identifier field. -/
theorem recordError_traceID (sp : SpanRecord) (e : Option String) :
    (recordError sp e).traceID = sp.traceID := by
  cases e <;> rfl

/-- `recordError` on the name field. -/
theorem recordError_name (sp : SpanRecord) (e : Option String) :
    (recordError sp e).name = sp.name := by
  cases e <;> rfl

/-- `recordError` on the attributes field. -/
theorem recordError_attrs (sp : SpanRecord) (e : Option String) :
    (recordError sp e).attrs = sp.attrs := by
  cases e <;> rfl

/-- The status after `recordError` on a span with unset status. -/
theorem recordError_status (sp : SpanRecord) (e : Option String)
    (h : sp.status = none) :
    (recordError sp e).status = Option.map (fun m => ("Error", formatError m)) e := by
  cases e <;> simp [recordError, h]

/-! ### Claims -/

/-- C1: for every request whose context already carries the idempotency
marker key, the interceptor performs no tracing work and immediately
delegates to the next handler (it returns exactly the next handler's result,
with no span added and no context rewritten); consequently, nesting two
installations of the interceptor around a span-free handler produces exactly
one span for a fresh request. -/
theorem c1_idempotency_guard (env : Env) (next : Handler) (f : Request → Request)
    (r r' : Request) (h : r.ctx.handled = true) (h' : r'.ctx.handled = false) :
    internalMiddlewareServerTracing env next r = next r ∧
    ((internalMiddlewareServerTracing env
        (internalMiddlewareServerTracing env (fun s => (f s, []))) r').2).length = 1 := by
  constructor
  · exact middleware_skip env next r h
  · unfold internalMiddlewareServerTracing
    simp only [h', Bool.false_eq_true, if_false]
    have hmark := middleware_marks env r'
    unfold startedCtx at hmark
    by_cases hp : env.usingDefaultProvider <;>
      simp [hp, hmark, requestCapture_ctx, middleware_skip]

/-- Witness for C1 at concrete inputs. -/
theorem c1_idempotency_guard_witness :
    reqMarked.ctx.handled = true ∧ reqPlain.ctx.handled = false ∧
    (internalMiddlewareServerTracing envReal idHandler reqMarked = idHandler reqMarked ∧
     ((internalMiddlewareServerTracing envReal
         (internalMiddlewareServerTracing envReal (fun s => (id s, []))) reqPlain).2).length = 1) :=
  ⟨rfl, rfl, c1_idempotency_guard envReal idHandler id reqMarked reqPlain rfl rfl⟩

/-- C2: when the custom trace-ID header carries a valid canonical hex trace
identifier, the extractor returns a context whose remote parent span context
has exactly that trace identifier together with the freshly generated span
identifier, and the span started from that context continues that trace. -/
theorem c2_valid_custom_header (env : Env) (next : Handler) (r : Request) (t : String)
    (hget : r.header.get "MF-X-TRACE-ID" = t)
    (hparse : traceIDFromHex t = some t)
    (hh : r.ctx.handled = false) :
    startedCtx env r
      = { handled := true, parent := some ⟨t, env.freshSpanID, 0, [], true⟩ } ∧
    ∃ sp rest, (internalMiddlewareServerTracing env next r).2 = rest ++ [sp] ∧
      sp.parentCtx = startedCtx env r ∧ sp.traceID = t := by
  have hsc : startedCtx env r
      = { handled := true, parent := some ⟨t, env.freshSpanID, 0, [], true⟩ } := by
    unfold startedCtx
    rw [getSpanContext_valid { r.ctx with handled := true } r.header env.freshSpanID t
        hget hparse]
  refine ⟨hsc, ?_⟩
  cases hpv : env.usingDefaultProvider with
  | true =>
    rw [middleware_run_fast env next r hh hpv]
    refine ⟨_, _, rfl, rfl, ?_⟩
    simp [endSpan, startSpan, hsc]
  | false =>
    rw [middleware_run_slow env next r hh hpv]
    refine ⟨_, _, rfl, ?_, ?_⟩
    · simp [slowSpan, endSpan, addEvent, recordError_parentCtx, startSpan]
    · simp [slowSpan, endSpan, addEvent, recordError_traceID, startSpan, hsc]

/-- Witness for C2 at concrete inputs. -/
theorem c2_valid_custom_header_witness :
    reqCustom.header.get "MF-X-TRACE-ID" = "4bf92f3577b34da6a3ce929d0e0e4737" ∧
    traceIDFromHex "4bf92f3577b34da6a3ce929d0e0e4737"
      = some "4bf92f3577b34da6a3ce929d0e0e4737" ∧
    reqCustom.ctx.handled = false ∧
    (startedCtx envReal reqCustom
       = { handled := true,
           parent := some ⟨"4bf92f3577b34da6a3ce929d0e0e4737", envReal.freshSpanID,
                           0, [], true⟩ } ∧
     ∃ sp rest, (internalMiddlewareServerTracing envReal idHandler reqCustom).2
         = rest ++ [sp] ∧
       sp.parentCtx = startedCtx envReal reqCustom ∧
       sp.traceID = "4bf92f3577b34da6a3ce929d0e0e4737") :=
  ⟨rfl, rfl, rfl,
   c2_valid_custom_header envReal idHandler reqCustom
     "4bf92f3577b34da6a3ce929d0e0e4737" rfl rfl rfl⟩

/-- C3: when the custom trace-ID header is present but fails to parse, the
extractor returns exactly what standard-propagation-only extraction returns
on the same headers with the custom header removed; no failure is
surfaced. -/
theorem c3_malformed_fallback (ctx : Ctx) (h : Header) (sid t : String)
    (hget : h.get "MF-X-TRACE-ID" = t) (ht : t ≠ "")
    (hparse : traceIDFromHex t = none) :
    getSpanContext ctx h sid = standardExtract ctx (h.eraseKey "MF-X-TRACE-ID") := by
  have hback : standardExtract ctx (h.eraseKey "MF-X-TRACE-ID")
      = standardExtract ctx h := by
    unfold standardExtract
    rw [Header.get_eraseKey h "MF-X-TRACE-ID" "traceparent" (by decide)]
  rw [hback]
  simp [getSpanContext, hget, ht, hparse]

/-- Witness for C3 at concrete inputs. -/
theorem c3_malformed_fallback_witness :
    reqBadCustom.header.get "MF-X-TRACE-ID" = "zz" ∧ ("zz" : String) ≠ "" ∧
    traceIDFromHex "zz" = none ∧
    getSpanContext reqBadCustom.ctx reqBadCustom.header envReal.freshSpanID
      = standardExtract reqBadCustom.ctx
          (reqBadCustom.header.eraseKey "MF-X-TRACE-ID") :=
  ⟨rfl, by decide, rfl,
   c3_malformed_fallback reqBadCustom.ctx reqBadCustom.header envReal.freshSpanID
     "zz" rfl (by decide) rfl⟩

/-- C10: a successfully parsed custom trace-ID header synthesizes a remote
parent span context carrying only the parsed trace ID and the fresh span ID:
its trace flags are zero (not sampled) and its trace state is empty. -/
theorem c10_synthesized_not_sampled (ctx : Ctx) (h : Header) (sid t : String)
    (hget : h.get "MF-X-TRACE-ID" = t) (hparse : traceIDFromHex t = some t) :
    ∃ sc : SpanContext, getSpanContext ctx h sid = { ctx with parent := some sc } ∧
      sc.traceID = t ∧ sc.spanID = sid ∧ sc.traceFlags = 0 ∧ sc.traceState = [] :=
  ⟨⟨t, sid, 0, [], true⟩, getSpanContext_valid ctx h sid t hget hparse,
   rfl, rfl, rfl, rfl⟩

/-- Witness for C10 at concrete inputs. -/
theorem c10_synthesized_not_sampled_witness :
    reqCustom.header.get "MF-X-TRACE-ID" = "4bf92f3577b34da6a3ce929d0e0e4737" ∧
    traceIDFromHex "4bf92f3577b34da6a3ce929d0e0e4737"
      = some "4bf92f3577b34da6a3ce929d0e0e4737" ∧
    (∃ sc : SpanContext,
      getSpanContext reqCustom.ctx reqCustom.header "00f067aa0ba902b7"
        = { reqCustom.ctx with parent := some sc } ∧
      sc.traceID = "4bf92f3577b34da6a3ce929d0e0e4737" ∧
      sc.spanID = "00f067aa0ba902b7" ∧ sc.traceFlags = 0 ∧ sc.traceState = []) :=
  ⟨rfl, rfl,
   c10_synthesized_not_sampled reqCustom.ctx reqCustom.header "00f067aa0ba902b7"
     "4bf92f3577b34da6a3ce929d0e0e4737" rfl rfl⟩

/-- C4: on the default-provider fast path the interceptor delegates with only
the span-bearing context injected (same header, same unread body), records no
event, yet the span is started before delegation and ended on return. -/
theorem c4_noop_fast_path (env : Env) (next : Handler) (r : Request)
    (hh : r.ctx.handled = false) (hp : env.usingDefaultProvider = true) :
    internalMiddlewareServerTracing env next r
      = ((next { r with ctx := startedCtx env r }).1,
         (next { r with ctx := startedCtx env r }).2
           ++ [endSpan (startSpan env (startedCtx env r) r.url)]) ∧
    (endSpan (startSpan env (startedCtx env r) r.url)).events = [] ∧
    (endSpan (startSpan env (startedCtx env r) r.url)).status = none ∧
    (endSpan (startSpan env (startedCtx env r) r.url)).ended = true ∧
    ({ r with ctx := startedCtx env r } : Request).body = r.body ∧
    ({ r with ctx := startedCtx env r } : Request).header = r.header :=
  ⟨middleware_run_fast env next r hh hp, rfl, rfl, rfl, rfl, rfl⟩

/-- Witness for C4 at concrete inputs. -/
theorem c4_noop_fast_path_witness :
    reqPlain.ctx.handled = false ∧ envNoop.usingDefaultProvider = true ∧
    (internalMiddlewareServerTracing envNoop idHandler reqPlain
       = ((idHandler { reqPlain with ctx := startedCtx envNoop reqPlain }).1,
          (idHandler { reqPlain with ctx := startedCtx envNoop reqPlain }).2
            ++ [endSpan (startSpan envNoop (startedCtx envNoop reqPlain) reqPlain.url)]) ∧
     (endSpan (startSpan envNoop (startedCtx envNoop reqPlain) reqPlain.url)).events = [] ∧
     (endSpan (startSpan envNoop (startedCtx envNoop reqPlain) reqPlain.url)).status = none ∧
     (endSpan (startSpan envNoop (startedCtx envNoop reqPlain) reqPlain.url)).ended = true ∧
     ({ reqPlain with ctx := startedCtx envNoop reqPlain } : Request).body = reqPlain.body ∧
     ({ reqPlain with ctx := startedCtx envNoop reqPlain } : Request).header = reqPlain.header) :=
  ⟨rfl, rfl, c4_noop_fast_path envNoop idHandler reqPlain rfl rfl⟩

/-- C5: when the body is captured (no `Content-Encoding`) and the body read
succeeds, the body stream handed to the downstream handler yields exactly the
original bytes without error, and the interceptor's result state is the
downstream handler's result on that request. -/
theorem c5_body_nondestructive (env : Env) (next : Handler) (r : Request)
    (hh : r.ctx.handled = false) (hp : env.usingDefaultProvider = false)
    (henc : r.header.get "Content-Encoding" = "") (hok : r.body.failAfter = none) :
    readAll (downstreamRequest env r).body = (r.body.content, false) ∧
    (internalMiddlewareServerTracing env next r).1
      = (next (downstreamRequest env r)).1 := by
  constructor
  · unfold downstreamRequest requestCapture
    simp [henc, readAll, hok]
  · rw [middleware_run_slow env next r hh hp]

/-- Witness for C5 at concrete inputs. -/
theorem c5_body_nondestructive_witness :
    reqPlain.ctx.handled = false ∧ envReal.usingDefaultProvider = false ∧
    reqPlain.header.get "Content-Encoding" = "" ∧ reqPlain.body.failAfter = none ∧
    (readAll (downstreamRequest envReal reqPlain).body = (reqPlain.body.content, false) ∧
     (internalMiddlewareServerTracing envReal idHandler reqPlain).1
       = (idHandler (downstreamRequest envReal reqPlain)).1) :=
  ⟨rfl, rfl, rfl, rfl, c5_body_nondestructive envReal idHandler reqPlain rfl rfl rfl rfl⟩

/-- C6: captured bodies are recorded verbatim when at or under the configured
maximum content-log size, and as the first N bytes followed by the "..."
marker when over it — for both the request and the response event. -/
theorem c6_truncation (env : Env) (next : Handler) (r : Request)
    (hh : r.ctx.handled = false) (hp : env.usingDefaultProvider = false)
    (henc : r.header.get "Content-Encoding" = "") (hok : r.body.failAfter = none)
    (hrenc : (next (downstreamRequest env r)).1.response.header.get "Content-Encoding"
      = "") :
    ∃ sp rest, (internalMiddlewareServerTracing env next r).2 = rest ++ [sp] ∧
      sp.events =
        [⟨"http.request",
          [("http.request.headers", serializeHeaders r.header),
           ("http.request.baggage", env.baggage),
           ("http.request.body",
            if r.body.content.length ≤ env.maxContentLogSize then r.body.content
            else r.body.content.take env.maxContentLogSize ++ "...")]⟩,
         ⟨"http.response",
          [("http.response.headers",
            serializeHeaders (next (downstreamRequest env r)).1.response.header),
           ("http.response.body",
            if (next (downstreamRequest env r)).1.response.buffer.length
                 ≤ env.maxContentLogSize
            then (next (downstreamRequest env r)).1.response.buffer
            else (next (downstreamRequest env r)).1.response.buffer.take
                   env.maxContentLogSize ++ "...")]⟩] := by
  rw [middleware_run_slow env next r hh hp]
  refine ⟨_, _, rfl, ?_⟩
  simp [slowSpan, endSpan, addEvent, recordError_events, startSpan, requestCapture,
        responseAttrs, strLimit, henc, hrenc, readAll, hok]

/-- Witness for C6 at concrete inputs (body and buffer both longer than the
configured maximum). -/
theorem c6_truncation_witness :
    reqLong.ctx.handled = false ∧ envReal.usingDefaultProvider = false ∧
    reqLong.header.get "Content-Encoding" = "" ∧ reqLong.body.failAfter = none ∧
    (idHandler (downstreamRequest envReal reqLong)).1.response.header.get
      "Content-Encoding" = "" ∧
    (∃ sp rest, (internalMiddlewareServerTracing envReal idHandler reqLong).2
        = rest ++ [sp] ∧
      sp.events =
        [⟨"http.request",
          [("http.request.headers", serializeHeaders reqLong.header),
           ("http.request.baggage", envReal.baggage),
           ("http.request.body",
            if reqLong.body.content.length ≤ envReal.maxContentLogSize
            then reqLong.body.content
            else reqLong.body.content.take envReal.maxContentLogSize ++ "...")]⟩,
         ⟨"http.response",
          [("http.response.headers",
            serializeHeaders (idHandler (downstreamRequest envReal reqLong)).1.response.header),
           ("http.response.body",
            if (idHandler (downstreamRequest envReal reqLong)).1.response.buffer.length
                 ≤ envReal.maxContentLogSize
            then (idHandler (downstreamRequest envReal reqLong)).1.response.buffer
            else (idHandler (downstreamRequest envReal reqLong)).1.response.buffer.take
                   envReal.maxContentLogSize ++ "...")]⟩]) :=
  ⟨rfl, rfl, rfl, rfl, rfl, c6_truncation envReal idHandler reqLong rfl rfl rfl rfl rfl⟩

/-- C7: two independent guarantees. For every request with non-empty
`Content-Encoding`, the `http.request` event carries only the header and
baggage attributes — no body attribute — and the body stream is not read (the
downstream request only has its context changed). For every response with
non-empty `Content-Encoding`, the `http.response` event carries only the
header attribute — no body attribute. Each holds regardless of body size and
regardless of the other side's encoding. -/
theorem c7_encoded_body_skip (env : Env) (next : Handler) (r : Request)
    (hh : r.ctx.handled = false) (hp : env.usingDefaultProvider = false) :
    (¬(r.header.get "Content-Encoding" = "") →
      downstreamRequest env r = { r with ctx := startedCtx env r } ∧
      ∃ sp rest, (internalMiddlewareServerTracing env next r).2 = rest ++ [sp] ∧
        sp.events =
          [⟨"http.request",
            [("http.request.headers", serializeHeaders r.header),
             ("http.request.baggage", env.baggage)]⟩,
           ⟨"http.response", responseAttrs env (next (downstreamRequest env r)).1⟩]) ∧
    (¬((next (downstreamRequest env r)).1.response.header.get "Content-Encoding" = "") →
      ∃ sp rest, (internalMiddlewareServerTracing env next r).2 = rest ++ [sp] ∧
        sp.events =
          [⟨"http.request", (requestCapture env { r with ctx := startedCtx env r }).1⟩,
           ⟨"http.response",
            [("http.response.headers",
              serializeHeaders (next (downstreamRequest env r)).1.response.header)]⟩]) := by
  constructor
  · intro henc
    have hdr : downstreamRequest env r = { r with ctx := startedCtx env r } := by
      unfold downstreamRequest requestCapture
      simp [henc]
    refine ⟨hdr, ?_⟩
    rw [middleware_run_slow env next r hh hp]
    refine ⟨_, _, rfl, ?_⟩
    simp [slowSpan, endSpan, addEvent, recordError_events, startSpan, requestCapture, henc]
  · intro hrenc
    rw [middleware_run_slow env next r hh hp]
    refine ⟨_, _, rfl, ?_⟩
    simp [slowSpan, endSpan, addEvent, recordError_events, startSpan, responseAttrs, hrenc]

/-- Witness for C7 at concrete inputs, exercising both implications. -/
theorem c7_encoded_body_skip_witness :
    reqEncoded.ctx.handled = false ∧ envReal.usingDefaultProvider = false ∧
    ¬(reqEncoded.header.get "Content-Encoding" = "") ∧
    ¬((idHandler (downstreamRequest envReal reqEncoded)).1.response.header.get
        "Content-Encoding" = "") ∧
    (downstreamRequest envReal reqEncoded
       = { reqEncoded with ctx := startedCtx envReal reqEncoded } ∧
     ∃ sp rest, (internalMiddlewareServerTracing envReal idHandler reqEncoded).2
         = rest ++ [sp] ∧
       sp.events =
         [⟨"http.request",
           [("http.request.headers", serializeHeaders reqEncoded.header),
            ("http.request.baggage", envReal.baggage)]⟩,
          ⟨"http.response",
           responseAttrs envReal (idHandler (downstreamRequest envReal reqEncoded)).1⟩]) ∧
    (∃ sp rest, (internalMiddlewareServerTracing envReal idHandler reqEncoded).2
        = rest ++ [sp] ∧
      sp.events =
        [⟨"http.request",
          (requestCapture envReal
            { reqEncoded with ctx := startedCtx envReal reqEncoded }).1⟩,
         ⟨"http.response",
          [("http.response.headers",
            serializeHeaders
              (idHandler (downstreamRequest envReal reqEncoded)).1.response.header)]⟩]) :=
  ⟨rfl, rfl, by decide, by decide,
   (c7_encoded_body_skip envReal idHandler reqEncoded rfl rfl).1 (by decide),
   (c7_encoded_body_skip envReal idHandler reqEncoded rfl rfl).2 (by decide)⟩

/-- C8: on the instrumented path the final span status mirrors the error slot
after delegation: error recorded by the handler chain → status error with the
formatted message; no error → status left unset. -/
theorem c8_error_status (env : Env) (next : Handler) (r : Request)
    (hh : r.ctx.handled = false) (hp : env.usingDefaultProvider = false) :
    ∃ sp rest, (internalMiddlewareServerTracing env next r).2 = rest ++ [sp] ∧
      sp.status = Option.map (fun e => ("Error", formatError e))
        (next (downstreamRequest env r)).1.err := by
  rw [middleware_run_slow env next r hh hp]
  refine ⟨_, _, rfl, ?_⟩
  have hre := recordError_status
    (addEvent (startSpan env (startedCtx env r) r.url) "http.request"
      (requestCapture env { r with ctx := startedCtx env r }).1)
    (next (downstreamRequest env r)).1.err rfl
  simpa [slowSpan, endSpan, addEvent] using hre

/-- Witness for C8 at concrete inputs (a handler that records an error). -/
theorem c8_error_status_witness :
    reqPlain.ctx.handled = false ∧ envReal.usingDefaultProvider = false ∧
    (∃ sp rest, (internalMiddlewareServerTracing envReal errHandler reqPlain).2
        = rest ++ [sp] ∧
      sp.status = Option.map (fun e => ("Error", formatError e))
        (errHandler (downstreamRequest envReal reqPlain)).1.err) :=
  ⟨rfl, rfl, c8_error_status envReal errHandler reqPlain rfl rfl⟩

/-- C9 counterexample: on a request whose body read fails after three bytes
(`reqFailingBody`), the `http.request` event still carries a body attribute
(holding the partially read bytes), so the attribute is not omitted. -/
theorem c9_body_attr_not_omitted :
    ∃ sp ∈ (internalMiddlewareServerTracing envReal idHandler reqFailingBody).2,
      ∃ e ∈ sp.events, e.name = "http.request" ∧
        ("http.request.body", "sec") ∈ e.attrs := by
  decide

/-- C9 (amended): when the body read fails, the read error is discarded; the
`http.request` event still records a body attribute holding the bytes read
before the failure (size-limited as usual), the error is not propagated (the
interceptor's result state is the downstream handler's result), and the
downstream body stream holds exactly those partial bytes. -/
theorem c9_best_effort_capture (env : Env) (next : Handler) (r : Request) (k : Nat)
    (hh : r.ctx.handled = false) (hp : env.usingDefaultProvider = false)
    (henc : r.header.get "Content-Encoding" = "") (hfail : r.body.failAfter = some k) :
    ∃ sp rest, (internalMiddlewareServerTracing env next r).2 = rest ++ [sp] ∧
      sp.events.head? = some ⟨"http.request",
        [("http.request.headers", serializeHeaders r.header),
         ("http.request.baggage", env.baggage),
         ("http.request.body",
          strLimit (r.body.content.take k) env.maxContentLogSize "...")]⟩ ∧
      (internalMiddlewareServerTracing env next r).1
        = (next (downstreamRequest env r)).1 ∧
      (downstreamRequest env r).body
        = { content := r.body.content.take k, failAfter := none } := by
  rw [middleware_run_slow env next r hh hp]
  refine ⟨_, _, rfl, ?_, rfl, ?_⟩
  · simp [slowSpan, endSpan, addEvent, recordError_events, startSpan, requestCapture,
          henc, readAll, hfail]
  · unfold downstreamRequest requestCapture
    simp [henc, readAll, hfail]

/-- Witness for the amended C9 at concrete inputs. -/
theorem c9_best_effort_capture_witness :
    reqFailingBody.ctx.handled = false ∧ envReal.usingDefaultProvider = false ∧
    reqFailingBody.header.get "Content-Encoding" = "" ∧
    reqFailingBody.body.failAfter = some 3 ∧
    (∃ sp rest, (internalMiddlewareServerTracing envReal idHandler reqFailingBody).2
        = rest ++ [sp] ∧
      sp.events.head? = some ⟨"http.request",
        [("http.request.headers", serializeHeaders reqFailingBody.header),
         ("http.request.baggage", envReal.baggage),
         ("http.request.body",
          strLimit (reqFailingBody.body.content.take 3) envReal.maxContentLogSize "...")]⟩ ∧
      (internalMiddlewareServerTracing envReal idHandler reqFailingBody).1
        = (idHandler (downstreamRequest envReal reqFailingBody)).1 ∧
      (downstreamRequest envReal reqFailingBody).body
        = { content := reqFailingBody.body.content.take 3, failAfter := none }) :=
  ⟨rfl, rfl, rfl, rfl,
   c9_best_effort_capture envReal idHandler reqFailingBody 3 rfl rfl rfl rfl⟩

end GfTracing
